import Mathlib

/-!
Verification of the segregation engine of `aws-s3-file-segregation`
(`src/main.py`) against its natural-language specification.

The Python source is shallowly embedded below.  Pure helpers become Lean
functions; the S3 transport (`boto3`), the regex engine (`re`) and the
process clock are external collaborators and are modelled as explicit
parameters/oracles; the stateful run becomes explicit state passing over a
bucket/key object store.  All recursion is structural (fuel where needed) so
every definition evaluates by `decide` / `rfl` on concrete inputs.
-/

/- ### Characters and low-level string helpers (List Char based) -/

/-- Model of Python `str.replace(pattern, replacement)` on character lists:
replaces every non-overlapping occurrence, scanning left to right.  Fueled by
the string length; the wrapper `pyReplace` supplies sufficient fuel. -/
def pyReplaceF : Nat → List Char → List Char → List Char → List Char
  | 0, s, _, _ => s
  | fuel + 1, s, pat, rep =>
    match s with
    | [] => []
    | c :: rest =>
      if pat ≠ [] ∧ pat.isPrefixOf s then
        rep ++ pyReplaceF fuel (s.drop pat.length) pat rep
      else
        c :: pyReplaceF fuel rest pat rep

/-- Python `s.replace(pat, rep)` (all occurrences, left to right). -/
def pyReplace (s pat rep : List Char) : List Char :=
  pyReplaceF s.length s pat rep

/-- Python `s.split(sep, 1)` for a single-character separator `'/'`: returns
the part before the first `'/'` and the part after it, or `none` when the
separator does not occur (in the source, tuple unpacking of the 1-element
result raises `ValueError`). -/
def splitFirstSlash : List Char → Option (List Char × List Char)
  | [] => none
  | c :: rest =>
    if c = '/' then some ([], rest)
    else
      match splitFirstSlash rest with
      | none => none
      | some (a, b) => some (c :: a, b)

/-- Helper for `os.path.basename`: the suffix after the last `'/'`. -/
def basenameAux : List Char → List Char → List Char
  | cur, [] => cur.reverse
  | cur, c :: rest => if c = '/' then basenameAux [] rest else basenameAux (c :: cur) rest

/-- Model of Python `os.path.basename` (POSIX): everything after the final
path separator. -/
def os_path_basename (s : String) : String :=
  String.mk (basenameAux [] s.toList)

/-- Model of Python (POSIX) `os.path.join(a, b)` for two components: an
absolute `b` discards `a`; otherwise a separator is inserted unless `a` is
empty or already ends with one. -/
def os_path_join (a b : String) : String :=
  if b.toList.head? = some '/' then b
  else if a.toList = [] ∨ a.toList.getLast? = some '/' then a ++ b
  else a ++ "/" ++ b

/-- Python `key.endswith('/')`. -/
def endsWithSlash (s : String) : Bool :=
  s.toList.getLast? = some '/'

/- ### Proleptic Gregorian calendar (model of Python `datetime`) -/

/-- A naive Python `datetime.datetime` value (no timezone, no microsecond:
the program only ever produces whole-second values). -/
structure DateTime where
  year : Nat
  month : Nat
  day : Nat
  hour : Nat
  minute : Nat
  second : Nat
  deriving DecidableEq, Repr

/-- Gregorian leap-year rule, as in Python `calendar.isleap`. -/
def isLeapYear (y : Nat) : Bool :=
  (y % 4 == 0 && y % 100 != 0) || y % 400 == 0

/-- Length of month `m` of year `y` (months numbered 1..12). -/
def daysInMonth (y m : Nat) : Nat :=
  if m = 2 then (if isLeapYear y then 29 else 28)
  else if m = 4 ∨ m = 6 ∨ m = 9 ∨ m = 11 then 30
  else 31

/-- Days in all years strictly before year `y` of the proleptic Gregorian
calendar (year 1 is the first year, as in Python `datetime`). -/
def daysBeforeYear (y : Nat) : Nat :=
  365 * (y - 1) + (y - 1) / 4 - (y - 1) / 100 + (y - 1) / 400

/-- Days in the months of the current year strictly before month `m`. -/
def daysBeforeMonth (y m : Nat) : Nat :=
  let l : Nat := if isLeapYear y then 1 else 0
  if m = 1 then 0
  else if m = 2 then 31
  else if m = 3 then 59 + l
  else if m = 4 then 90 + l
  else if m = 5 then 120 + l
  else if m = 6 then 151 + l
  else if m = 7 then 181 + l
  else if m = 8 then 212 + l
  else if m = 9 then 243 + l
  else if m = 10 then 273 + l
  else if m = 11 then 304 + l
  else 334 + l

/-- Python `date(y, m, d).toordinal()`: day number with 0001-01-01 as day 1. -/
def toOrdinal (y m d : Nat) : Nat :=
  daysBeforeYear y + daysBeforeMonth y m + d

/-- Seconds elapsed since 0001-01-01 00:00:00. -/
def toSecs (dt : DateTime) : Nat :=
  (toOrdinal dt.year dt.month dt.day - 1) * 86400
    + dt.hour * 3600 + dt.minute * 60 + dt.second

/-- Civil date from a day count with epoch 0000-03-01 (Hinnant's
`civil_from_days`, specialised to non-negative day counts). -/
def civilFromDays (z : Nat) : Nat × Nat × Nat :=
  let era := z / 146097
  let doe := z % 146097
  let yoe := ((doe + doe / 36524) - doe / 1460 - doe / 146096) / 365
  let y := yoe + era * 400
  let doy := (doe + yoe / 100) - (365 * yoe + yoe / 4)
  let mp := (5 * doy + 2) / 153
  let d := doy - (153 * mp + 2) / 5 + 1
  let m := if mp < 10 then mp + 3 else mp - 9
  (if m ≤ 2 then y + 1 else y, m, d)

/-- Inverse of `toOrdinal` (0001-01-01 is ordinal 1). -/
def fromOrdinal (n : Nat) : Nat × Nat × Nat :=
  civilFromDays (n + 305)

/-- Date-time from seconds elapsed since 0001-01-01 00:00:00. -/
def fromSecs (n : Nat) : DateTime :=
  let ymd := fromOrdinal (n / 86400 + 1)
  let r := n % 86400
  ⟨ymd.1, ymd.2.1, ymd.2.2, r / 3600, r % 3600 / 60, r % 60⟩

/-- Model of Python `dt - timedelta(seconds=secs)`.  Defined on the range
where the result does not precede 0001-01-01 (Python raises `OverflowError`
outside it; every run of this program stays far inside the range). -/
def pyDatetimeSub (dt : DateTime) (secs : Nat) : DateTime :=
  fromSecs (toSecs dt - secs)

/- ### Model of Python `datetime.strptime` for the directives the program
  uses (`%Y %m %d %H %M %S`, literal characters, `%%`). -/

/-- One `strptime` format token: a conversion directive or a literal
character. -/
inductive Dir where
  | Y
  | m
  | d
  | H
  | M
  | S
  | lit (c : Char)
  deriving DecidableEq, Repr

/-- Conversion directive named by a format character, `'%'` standing for the
escaped literal percent.  Unknown directives make Python `strptime` raise
`ValueError` (mapped to `none` by `parseFormat`). -/
def dirOfChar : Char → Option Dir
  | 'Y' => some Dir.Y
  | 'm' => some Dir.m
  | 'd' => some Dir.d
  | 'H' => some Dir.H
  | 'M' => some Dir.M
  | 'S' => some Dir.S
  | '%' => some (Dir.lit '%')
  | _ => none

/-- Tokenize a `strptime`/`strftime`-style format string.  `none` models the
`ValueError` Python raises for a bad or stray directive. -/
def parseFormat : List Char → Option (List Dir)
  | [] => some []
  | '%' :: [] => none
  | '%' :: c :: rest =>
    match dirOfChar c with
    | none => none
    | some dir => (parseFormat rest).map (dir :: ·)
  | c :: rest => (parseFormat rest).map (Dir.lit c :: ·)

/-- The regex alternatives CPython's `_strptime.TimeRE` compiles for each
directive, as ordered lists of per-position inclusive codepoint ranges:
`%Y ↦ \d\d\d\d`, `%m ↦ 1[0-2]|0[1-9]|[1-9]`, `%d ↦ 3[01]|[12]\d|0[1-9]|[1-9]`,
`%H ↦ 2[0-3]|[0-1]\d|\d`, `%M ↦ [0-5]\d|\d`, `%S ↦ 6[0-1]|[0-5]\d|\d`;
a literal character matches itself.  (Codepoints: '0'..'9' are 48..57.) -/
def dirAlts : Dir → List (List (Nat × Nat))
  | Dir.Y => [[(48, 57), (48, 57), (48, 57), (48, 57)]]
  | Dir.m => [[(49, 49), (48, 50)], [(48, 48), (49, 57)], [(49, 57)]]
  | Dir.d => [[(51, 51), (48, 49)], [(49, 50), (48, 57)], [(48, 48), (49, 57)], [(49, 57)]]
  | Dir.H => [[(50, 50), (48, 51)], [(48, 49), (48, 57)], [(48, 57)]]
  | Dir.M => [[(48, 53), (48, 57)], [(48, 57)]]
  | Dir.S => [[(54, 54), (48, 49)], [(48, 53), (48, 57)], [(48, 57)]]
  | Dir.lit c => [[(c.toNat, c.toNat)]]

/-- Try to take one alternative (a fixed-width sequence of codepoint ranges)
off the front of the input; returns the consumed token and the rest. -/
def takeAlt : List (Nat × Nat) → List Char → Option (List Char × List Char)
  | [], s => some ([], s)
  | _ :: _, [] => none
  | r :: rs, c :: cs =>
    if r.1 ≤ c.toNat ∧ c.toNat ≤ r.2 then
      match takeAlt rs cs with
      | none => none
      | some (tok, rest) => some (c :: tok, rest)
    else none

/-- Numeric value of a digit token. -/
def charsToNat (tok : List Char) : Nat :=
  tok.foldl (fun a c => 10 * a + (c.toNat - 48)) 0

/-- Backtracking over the ordered alternatives of one directive, continuing
with `next` on the remaining input (regex alternation semantics: first
alternative whose continuation also succeeds wins). -/
def tryAlts (next : List Char → Option (List (Dir × Nat) × List Char)) (dir : Dir) :
    List (List (Nat × Nat)) → List Char → Option (List (Dir × Nat) × List Char)
  | [], _ => none
  | alt :: alts, s =>
    match takeAlt alt s with
    | none => tryAlts next dir alts s
    | some (tok, rest) =>
      match next rest with
      | some (vals, rem) => some ((dir, charsToNat tok) :: vals, rem)
      | none => tryAlts next dir alts s

/-- Match a directive sequence against the input with full backtracking,
returning the captured numeric values and the unconsumed remainder.  Fueled;
`matchDirs` supplies fuel `ds.length + 1`, which always suffices. -/
def matchDirsF : Nat → List Dir → List Char → Option (List (Dir × Nat) × List Char)
  | 0, _, _ => none
  | _ + 1, [], s => some ([], s)
  | fuel + 1, dir :: ds, s => tryAlts (matchDirsF fuel ds) dir (dirAlts dir) s

/-- Match a directive sequence against the input (regex `.match` semantics:
anchored at the start, remainder allowed and reported). -/
def matchDirs (ds : List Dir) (s : List Char) : Option (List (Dir × Nat) × List Char) :=
  matchDirsF (ds.length + 1) ds s

/-- Fold one captured directive value into a date-time under construction. -/
def applyVal (dt : DateTime) : Dir × Nat → DateTime
  | (Dir.Y, v) => { dt with year := v }
  | (Dir.m, v) => { dt with month := v }
  | (Dir.d, v) => { dt with day := v }
  | (Dir.H, v) => { dt with hour := v }
  | (Dir.M, v) => { dt with minute := v }
  | (Dir.S, v) => { dt with second := v }
  | (Dir.lit _, _) => dt

/-- Build the final `datetime` from the captured values, starting from
Python's `strptime` defaults (1900-01-01 00:00:00) and applying the range
checks of the `datetime` constructor (`ValueError` outside them ↦ `none`). -/
def buildDateTime (vals : List (Dir × Nat)) : Option DateTime :=
  let dt := vals.foldl applyVal ⟨1900, 1, 1, 0, 0, 0⟩
  if 1 ≤ dt.year ∧ 1 ≤ dt.month ∧ dt.month ≤ 12 ∧ 1 ≤ dt.day ∧
      dt.day ≤ daysInMonth dt.year dt.month ∧ dt.hour ≤ 23 ∧
      dt.minute ≤ 59 ∧ dt.second ≤ 59 then
    some dt
  else none

/-- A Python exception class relevant to the extractor: `ValueError` (caught
by the source's handler at src/main.py 299) or `re.error` (raised by regex
compilation; not a `ValueError`, so it escapes that handler). -/
inductive PyError where
  | valueError
  | reError
  deriving DecidableEq, Repr

/-- Whether a conversion directive occurs twice in a tokenized format.
CPython's `_strptime.TimeRE` compiles one named regex group per conversion
directive, so a repeated directive makes the internal `re.compile` raise
`re.error` ("redefinition of group name"); literal characters form no group
and may repeat freely. -/
def dupConvDir : List Dir → Bool
  | [] => false
  | Dir.lit _ :: ds => dupConvDir ds
  | dir :: ds => ds.any (fun e => decide (e = dir)) || dupConvDir ds

/-- Model of Python `datetime.strptime(s, fmt)` for the directive subset
above.  It raises `ValueError` — caught by the source — for a bad or stray
directive, non-matching data, unconverted remainder, or an out-of-range
field; it raises `re.error` — not a `ValueError`, so it escapes the source's
handler — when the format repeats a conversion directive.  The bad-directive
check happens while the pattern string is built, before the internal
`re.compile`, hence before the duplicate check. -/
def pyStrptime (s fmt : String) : Except PyError DateTime :=
  match parseFormat fmt.toList with
  | none => Except.error PyError.valueError
  | some ds =>
    if dupConvDir ds then Except.error PyError.reError
    else
      match matchDirs ds s.toList with
      | none => Except.error PyError.valueError
      | some (vals, rem) =>
        if rem = [] then
          match buildDateTime vals with
          | none => Except.error PyError.valueError
          | some dt => Except.ok dt
        else Except.error PyError.valueError

/- ### Model of Python `datetime.strftime` for the same directive subset -/

/-- Decimal digits of `n` left-padded with zeros to width `w`. -/
def padNum (w n : Nat) : List Char :=
  let s := Nat.toDigits 10 n
  List.replicate (w - s.length) '0' ++ s

/-- Expansion of one `strftime` conversion directive. -/
def strftimeDir (dt : DateTime) : Char → Option (List Char)
  | 'Y' => some (padNum 4 dt.year)
  | 'm' => some (padNum 2 dt.month)
  | 'd' => some (padNum 2 dt.day)
  | 'H' => some (padNum 2 dt.hour)
  | 'M' => some (padNum 2 dt.minute)
  | 'S' => some (padNum 2 dt.second)
  | '%' => some ['%']
  | _ => none

/-- Format-string walk of `strftime`; directives outside the modelled subset
are passed through verbatim. -/
def pyStrftimeL (dt : DateTime) : List Char → List Char
  | [] => []
  | '%' :: c :: rest =>
    (match strftimeDir dt c with
     | some out => out
     | none => ['%', c]) ++ pyStrftimeL dt rest
  | c :: rest => c :: pyStrftimeL dt rest

/-- Model of Python `dt.strftime(fmt)` for the directive subset above. -/
def pyStrftime (dt : DateTime) (fmt : String) : String :=
  String.mk (pyStrftimeL dt fmt.toList)

/- ### Diagnostics and fatal errors -/

/-- An exception that reaches `start_segregation`'s catch-all handler: the
listing transport failure, the `ValueError` from `parse_s3_uri` on a source
locator with no key component, or a Python exception escaping the extractor
(corrected C2: `re.error` from an invalid pattern or a duplicate-directive
format). -/
inductive FatalError where
  | listTransport
  | badSourceUri
  | pyExc (e : PyError)
  deriving DecidableEq, Repr

/-- Structured log records, one constructor per `logging.*` call of the
segregation core (`src/main.py`), carrying the interpolated data. -/
inductive Diag where
  | noMatchFound (filename regexStr : String)
  | failToConvert (filename regexStr dateStr fmtStr : String)
  | movingDebug (sourcePath destFull : String)
  | errorMoving (sourcePath destDir : String)
  | emptySet
  | noFilesLeft
  | pageInfo (currLoop maxLoops nKeys nFiles : Nat)
  | fatalCaught (e : FatalError)
  | finishInfo (dateStr : String)
  deriving DecidableEq, Repr

/- ### DateExtractor (`extract_datetime_from_filename`, src/main.py 282–310) -/

/-- Model of the `re` module as used at src/main.py 283–284: `re.compile`
either raises `re.error` (`none`: a syntactically invalid pattern) or yields
a compiled pattern whose `search` is total over subjects, returning the
capture groups of the match (`match.groups()`, with `none` entries for
optional groups that did not participate) or `none` when nothing matches. -/
abbrev RegexEngine := String → Option (String → Option (List (Option String)))

/-- Python `str(g)` applied to a capture group: a non-participating group is
the value `None`, whose `str()` is the literal text `"None"`. -/
def pyStrGroup : Option String → String
  | none => "None"
  | some s => s

/-- Translation of `extract_datetime_from_filename` (src/main.py 282–310):
compile the pattern (line 283 — outside any handler, so a compile failure
escapes the function), search, join `str()` of every capture group with no
separator, parse the joined string with `strptime`.  A failed search and a
`ValueError` from `strptime` are logged and yield `None`; the `re.error`
`strptime` raises on a duplicate-directive format is not caught by the
`except ValueError` at line 299 and escapes. -/
def extract_datetime_from_filename (engine : RegexEngine)
    (filename regex_pattern datetime_format : String) :
    Except PyError (Option DateTime × List Diag) :=
  match engine regex_pattern with
  | none => Except.error PyError.reError
  | some search =>
    match search filename with
    | none => Except.ok (none, [Diag.noMatchFound filename regex_pattern])
    | some groups =>
      let date_str := String.join (groups.map pyStrGroup)
      match pyStrptime date_str datetime_format with
      | Except.ok date_obj => Except.ok (some date_obj, [])
      | Except.error PyError.valueError =>
        Except.ok (none, [Diag.failToConvert filename regex_pattern date_str
          datetime_format])
      | Except.error PyError.reError => Except.error PyError.reError

/- ### PathCodec (`parse_s3_uri`, src/main.py 216–218) -/

/-- Translation of `parse_s3_uri` (src/main.py 216–218):
`s3_path.replace('s3://', '').split('/', 1)` — note `str.replace` removes
every occurrence of `"s3://"`, not only a leading scheme.  `none` models the
`ValueError` raised by unpacking when no separator remains. -/
def parse_s3_uri (s3_path : String) : Option (String × String) :=
  match splitFirstSlash (pyReplace s3_path.toList "s3://".toList []) with
  | none => none
  | some (b, k) => some (String.mk b, String.mk k)

/-- Modelled from the spec (§4.1 PathCodec), for comparison with
`parse_s3_uri`: strip one fixed leading scheme only, then split on the first
path separator; fail when no separator is found. -/
def spec_parse_strip (s3_path : String) : Option (String × String) :=
  let t := if "s3://".toList.isPrefixOf s3_path.toList
           then s3_path.toList.drop 5 else s3_path.toList
  match splitFirstSlash t with
  | none => none
  | some (b, k) => some (String.mk b, String.mk k)

/- ### The object store and its client (external collaborator, §6) -/

/-- The durable state of the object store: the set of `(bucket, key)` pairs
currently holding an object (content is irrelevant to the program). -/
structure S3World where
  objects : List (String × String)
  deriving DecidableEq, Repr

/-- Failure oracle for the S3 client, one field per capability the program
uses.  `listResponse i` is the `Contents` key list of the `i`-th
`list_objects_v2` call of the run (the program passes no continuation token,
so successive calls re-list the prefix); `listFails i` makes that call raise
a transport error.  `copyFails`/`deleteFails` decide, from the call
arguments, whether `copy_object`/`delete_object` raise. -/
structure S3ClientModel where
  listResponse : Nat → List String
  listFails : Nat → Bool
  copyFails : String → String → String → Bool
  deleteFails : String → String → Bool

/-- One S3 mutation call as issued to the transport. -/
inductive S3Op where
  | copy (bucket key copySource : String)
  | delete (bucket key : String)
  deriving DecidableEq, Repr

/-- Whether a `copy_object` call reports success.  Besides the failure
oracle, S3 rejects a copy of an object onto itself when no metadata is
replaced — and this program never sends a metadata directive. -/
def copyOk (client : S3ClientModel) (destBucket destKey copySource srcBucket srcKey : String) : Bool :=
  !client.copyFails destBucket destKey copySource && !(destBucket = srcBucket ∧ destKey = srcKey)

/-- Effect of a successful copy on the store. -/
def s3thaw (w : S3World) (b k : String) : S3World :=
  ⟨(b, k) :: w.objects⟩

/-- Effect of a successful delete on the store. -/
def s3erase (w : S3World) (b k : String) : S3World :=
  ⟨w.objects.filter (fun o => o ≠ (b, k))⟩

/- ### Mover (`move_files_to_s3`, src/main.py 263–280) -/

/-- Exit taken by one `move_files_to_s3` call: normal completion, or the
per-object exception handler of src/main.py 279–280. -/
inductive MoveOutcome where
  | succeeded
  | failed
  deriving DecidableEq, Repr

/-- Observable result of one mover call: which exit it took, the store
afterwards, the transport calls it issued in order, and its log records. -/
structure MoveResult where
  outcome : MoveOutcome
  world : S3World
  trace : List S3Op
  diags : List Diag
  deriving DecidableEq, Repr

/-- Translation of `move_files_to_s3` (src/main.py 263–280): parse source
and destination locators, build the destination key from the destination
directory and the source basename, `copy_object`, then `delete_object`; any
exception anywhere in the body is caught, logged with source and destination,
and ends the call (`MoveOutcome.failed`). -/
def move_files_to_s3 (client : S3ClientModel) (w : S3World)
    (source_path destination_dir : String) : MoveResult :=
  match parse_s3_uri source_path with
  | none => ⟨MoveOutcome.failed, w, [], [Diag.errorMoving source_path destination_dir]⟩
  | some (source_bucket, source_key) =>
    match parse_s3_uri destination_dir with
    | none => ⟨MoveOutcome.failed, w, [], [Diag.errorMoving source_path destination_dir]⟩
    | some (dest_bucket, dest_dir) =>
      let dest_key := os_path_join dest_dir (os_path_basename source_key)
      let dbg := Diag.movingDebug source_path (os_path_join dest_bucket dest_key)
      if copyOk client dest_bucket dest_key source_path source_bucket source_key then
        let w1 := s3thaw w dest_bucket dest_key
        if client.deleteFails source_bucket source_key then
          ⟨MoveOutcome.failed, w1,
            [S3Op.copy dest_bucket dest_key source_path,
             S3Op.delete source_bucket source_key],
            [dbg, Diag.errorMoving source_path destination_dir]⟩
        else
          ⟨MoveOutcome.succeeded, s3erase w1 source_bucket source_key,
            [S3Op.copy dest_bucket dest_key source_path,
             S3Op.delete source_bucket source_key],
            [dbg]⟩
      else
        ⟨MoveOutcome.failed, w, [S3Op.copy dest_bucket dest_key source_path],
          [dbg, Diag.errorMoving source_path destination_dir]⟩

/- ### Paginator (`list_s3_get_files`, src/main.py 220–261) -/

/-- What the generator `list_s3_get_files` produces over a whole run: the
pages it yielded, and the exception (if any) that escaped it into the
caller — which in the source surfaces only when the `for` loop pulls the
next page, i.e. after all yielded pages were processed. -/
structure PageFetch where
  pages : List (List String)
  fatal : Option FatalError
  deriving DecidableEq, Repr

/-- The keys of the `i`-th listing call that survive the pseudo-directory
filter, joined with the bucket exactly as the source appends
`os.path.join(s3_bucket, _key)`. -/
def pageAt (client : S3ClientModel) (bucket : String) (i : Nat) : List String :=
  ((client.listResponse i).filter (fun k => !endsWithSlash k)).map (os_path_join bucket)

/-- Loop body of `list_s3_get_files` (src/main.py 230–261).  `fuel` is the
number of remaining permitted iterations (`n_loops - count_loop + 1`);
`i` numbers the listing calls from 0.  A transport failure raises; an empty
`Contents` or an all-pseudo-directory page breaks; otherwise the filtered
page is yielded and the loop continues. -/
def listLoop (client : S3ClientModel) (bucket : String) : Nat → Nat → PageFetch
  | _, 0 => ⟨[], none⟩
  | i, fuel + 1 =>
    if client.listFails i then ⟨[], some FatalError.listTransport⟩
    else if client.listResponse i = [] then ⟨[], none⟩
    else
      let paths := pageAt client bucket i
      if paths = [] then ⟨[], none⟩
      else
        let r := listLoop client bucket (i + 1) fuel
        ⟨paths :: r.pages, r.fatal⟩

/-- Translation of `list_s3_get_files` (src/main.py 220–261).  `n_keys` is
forwarded to the client as `MaxKeys` (the bound on `listResponse` lengths is
therefore a property of the client, assumed where needed); `n_loops` bounds
the iterations.  A source path with no key component raises `ValueError`
from `parse_s3_uri` on the first pull. -/
def list_s3_get_files (client : S3ClientModel) (s3_path : String)
    (n_keys n_loops : Nat) : PageFetch :=
  match parse_s3_uri s3_path with
  | none => ⟨[], some FatalError.badSourceUri⟩
  | some (s3_bucket, _) =>
    let _ := n_keys
    listLoop client s3_bucket 0 n_loops

/- ### Engine (`start_segregation`, src/main.py 312–347) -/

/-- The validated configuration entries `start_segregation` reads from
`dict_config` (validated and defaulted by `validate_refine_config`, which is
outside the core).  `match_pattern` is `none` when the optional key is
absent. -/
structure RunConfig where
  s3_dir : String
  s3_segregated_dir : String
  s3_error_dir : String
  match_pattern : Option String
  datetime_format : String
  time_delay : Nat
  n_keys : Nat
  n_loops : Nat
  n_workers : Nat

/-- Python truthiness of the `match_pattern` entry (`if not match_pattern:`):
absent (`None`) and the empty string are both falsy. -/
def patTruthy : Option String → Bool
  | none => false
  | some s => s.toList ≠ []

/-- The classification of one listed file (src/main.py 328–336): with a falsy
pattern the per-run default date is used and the extractor is bypassed;
otherwise the fallible extractor runs on the file's basename, and its escape
paths (corrected C2) propagate. -/
def classify_date (engine : RegexEngine) (cfg : RunConfig) (default_date : DateTime)
    (file : String) : Except PyError (Option DateTime × List Diag) :=
  if patTruthy cfg.match_pattern then
    extract_datetime_from_filename engine (os_path_basename file)
      (cfg.match_pattern.getD "") cfg.datetime_format
  else
    Except.ok (some default_date, [])

/-- The destination the routing step (src/main.py 338–342) derives from one
classification result: an unclassified file goes to the error directory
unchanged; a dated file goes to the segregated-directory template formatted
with its date. -/
def route_of (cfg : RunConfig) (cdate : Option DateTime) : String :=
  match cdate with
  | none => cfg.s3_error_dir
  | some d => pyStrftime d cfg.s3_segregated_dir

/-- Whether `strptime` under this format raises `re.error` (the format
repeats a conversion directive) — a property of the format alone. -/
def strptimeRaisesRe (fmt : String) : Bool :=
  match parseFormat fmt.toList with
  | none => false
  | some ds => dupConvDir ds

/-- The configuration-level no-raise condition for classification: the
pattern is falsy (extractor bypassed), or it compiles under the engine and
the format does not repeat a conversion directive.  The extractor's two
escape paths (corrected C2) depend only on pattern and format, so under this
condition no classification during a run can raise. -/
def classifyTotal (engine : RegexEngine) (cfg : RunConfig) : Bool :=
  !patTruthy cfg.match_pattern ||
    ((engine (cfg.match_pattern.getD "")).isSome &&
      !strptimeRaisesRe cfg.datetime_format)

/-- One submitted move task together with its observable result. -/
structure TaskResult where
  file : String
  destination : String
  move : MoveResult
  deriving DecidableEq, Repr

/-- Processing of one page (src/main.py 327–344): one mover task per file,
then `wait(futures)`.  Each task's outcome depends only on its own arguments
and the failure oracle (never on the store state), so every interleaving of
the bounded worker pool yields the same outcomes; the store is threaded in
submission order as one admissible schedule.  A classification exception
(corrected C2) aborts the page there: files before it were already submitted
(the pool shutdown still runs them), files after it never are. -/
def run_page (client : S3ClientModel) (engine : RegexEngine) (cfg : RunConfig)
    (default_date : DateTime) (w : S3World) :
    List String → List TaskResult × S3World × Option PyError
  | [] => ([], w, none)
  | file :: files =>
    match classify_date engine cfg default_date file with
    | Except.error e => ([], w, some e)
    | Except.ok cr =>
      let dest := route_of cfg cr.1
      let r := move_files_to_s3 client w file dest
      let rest := run_page client engine cfg default_date r.world files
      (⟨file, dest, r⟩ :: rest.1, rest.2.1, rest.2.2)

/-- All pages in order, threading the store; a classification exception stops
the run after the partially processed page (the generator is never pulled
again). -/
def run_pages (client : S3ClientModel) (engine : RegexEngine) (cfg : RunConfig)
    (default_date : DateTime) (w : S3World) :
    List (List String) → List (List TaskResult) × S3World × Option PyError
  | [] => ([], w, none)
  | page :: pages =>
    let pr := run_page client engine cfg default_date w page
    match pr.2.2 with
    | some e => ([pr.1], pr.2.1, some e)
    | none =>
      let rest := run_pages client engine cfg default_date pr.2.1 pages
      (pr.1 :: rest.1, rest.2.1, rest.2.2)

/-- Observable result of one `start_segregation` call.  The Python function
itself returns `None`; these fields are the run's observable trace: the
processed pages with their task results, the final store, and the exception
(if any) caught by the handler at src/main.py 346–347. -/
structure RunResult where
  pages : List (List TaskResult)
  world : S3World
  fatalLogged : Option FatalError
  deriving DecidableEq, Repr

/-- Translation of `start_segregation` (src/main.py 312–347).  `now` is the
single `datetime.now()` sample of line 322; the default date is computed once
from it, before any page.  The generator's pages are processed in order; an
exception raised by the generator surfaces after the pages already yielded
were processed, a classification exception aborts the loop mid-page before
the generator is pulled again, and either is swallowed by the catch-all
`except` (line 346), so the function always returns normally. -/
def start_segregation (client : S3ClientModel) (engine : RegexEngine)
    (cfg : RunConfig) (now : DateTime) (w : S3World) : RunResult :=
  let default_date := pyDatetimeSub now cfg.time_delay
  let fetch := list_s3_get_files client cfg.s3_dir cfg.n_keys cfg.n_loops
  let r := run_pages client engine cfg default_date w fetch.pages
  match r.2.2 with
  | some e => ⟨r.1, r.2.1, some (FatalError.pyExc e)⟩
  | none => ⟨r.1, r.2.1, fetch.fatal⟩

/-- The mover-relevant log trail of a run, in order, ending with the fatal
record when the catch-all handler fired. -/
def run_diags (r : RunResult) : List Diag :=
  (r.pages.map (fun page => (page.map (fun t => t.move.diags)).flatten)).flatten
    ++ (match r.fatalLogged with
        | none => []
        | some e => [Diag.fatalCaught e])

/-- Number of mover tasks of the run that took the failure exit. -/
def failedCount (r : RunResult) : Nat :=
  ((r.pages.map (fun page =>
    (page.filter (fun t => t.move.outcome = MoveOutcome.failed)).length)).foldl (· + ·) 0)

/-- All tasks of the run, in submission order. -/
def allTasks (r : RunResult) : List TaskResult :=
  r.pages.flatten

/- ### The surrounding CLI (`__main__`, src/main.py 349–377) -/

/-- The run-end log record of `__main__` (src/main.py 377): the only record
emitted after the run, carrying nothing but the formatted process date. -/
def main_finish_log (process_date : DateTime) : Diag :=
  Diag.finishInfo (pyStrftime process_date "%Y%m%d")

/-- The core-relevant log trail of one `__main__` invocation after argument
and configuration validation succeeded. -/
def main_log (r : RunResult) (process_date : DateTime) : List Diag :=
  run_diags r ++ [main_finish_log process_date]

/-- Process exit status of `__main__` once validation has passed:
`start_segregation` swallows every exception inside its own `try` (src/main.py
324–347) and `__main__` (349–377) calls no `sys.exit` and ends normally, so
the interpreter exits with status 0 — whatever happened during the run. -/
def main_exit_code (_r : RunResult) : Nat :=
  0

/-- A format all of whose tokens are conversion directives (no literal
characters) and without a repeated directive: every such directive matches
only decimal digits, and `strptime` under such a format cannot raise
`re.error` (a duplicated directive would raise instead of classifying —
see the corrected C2). -/
def digitOnlyFormat (fmt : String) : Bool :=
  match parseFormat fmt.toList with
  | none => false
  | some ds =>
    ds.all (fun d => match d with | Dir.lit _ => false | _ => true) && !dupConvDir ds

/-- Compiled searcher for the repository's own single-group test pattern,
with the result `re.compile(pattern).search(filename)` produces on the test
input (src/tests/test_extract_datetime_from_filename.py). -/
def searchCDR1 : String → Option (List (Option String)) := fun fn =>
  if fn = "CHARGINGCDR_4008-BROCC3-20240901-234125-56908.ber" then
    some [some "20240901"]
  else none

/-- Compiled searcher for the repository's two-group test pattern. -/
def searchCDR2 : String → Option (List (Option String)) := fun fn =>
  if fn = "CHARGINGCDR_4008-BRCCNH-CCNCDR44-01-Blk0Blk-8421-20221231-100511-78.ccn" then
    some [some "20221231", some "10"]
  else none

/-- Compiled searcher for the optional-group pattern of the C10 witness: the
trailing two-digit group does not participate in the match, so `groups()`
reports `None` for it. -/
def searchOpt1 : String → Option (List (Option String)) := fun fn =>
  if fn = "CHARGINGCDR_X-20240901.ber" then some [some "20240901", none] else none

/-- Compiled searcher for the duplicate-format counterexample pattern. -/
def searchDup : String → Option (List (Option String)) := fun fn =>
  if fn = "x-20242025.log" then some [some "2024", some "2025"] else none

/-- A compiled pattern that matches nothing (for patterns the fixtures do not
exercise). -/
def searchNothing : String → Option (List (Option String)) := fun _ => none

/-- Fixture regex engine: the two test patterns compile to their searchers;
the syntactically invalid pattern `"("` makes `re.compile` raise. -/
def engineFixture : RegexEngine := fun pat =>
  if pat = "CHARGINGCDR_.*-(\\d{8})-.*.ber" then some searchCDR1
  else if pat = "^CHARGINGCDR_.*-(\\d{8})-?(\\d{2}).*" then some searchCDR2
  else if pat = "(" then none
  else some searchNothing

/-- Fixture regex engine for the optional-group pattern of the C10 witness. -/
def engineOptFixture : RegexEngine := fun pat =>
  if pat = "CHARGINGCDR_.*-(\\d{8})-?(\\d{2})?\\.ber" then some searchOpt1
  else some searchNothing

/-- Fixture regex engine for the duplicate-directive counterexample. -/
def engineDupFixture : RegexEngine := fun pat =>
  if pat = "(\\d{4})(\\d{4})" then some searchDup
  else some searchNothing

/-- The exit `move_files_to_s3` takes, computed from the call arguments and
the failure oracle alone: the mover's outcome never depends on the store
state, hence never on sibling moves of the same page. -/
def moveOutcomeOf (client : S3ClientModel) (source_path destination_dir : String) : MoveOutcome :=
  match parse_s3_uri source_path with
  | none => MoveOutcome.failed
  | some (sb, sk) =>
    match parse_s3_uri destination_dir with
    | none => MoveOutcome.failed
    | some (db, dd) =>
      let dk := os_path_join dd (os_path_basename sk)
      if copyOk client db dk source_path sb sk then
        if client.deleteFails sb sk then MoveOutcome.failed else MoveOutcome.succeeded
      else MoveOutcome.failed

/- ### Concrete fixtures used by witnesses and counterexamples -/

/-- Listing responses of the fixture store: one page with a classifiable
charging-CDR file and an unclassifiable report, then exhaustion. -/
def clientPages : Nat → List String
  | 0 => ["in/CHARGINGCDR_4008-BROCC3-20240901-234125-56908.ber",
          "in/report_wrong_format.txt"]
  | _ + 1 => []

/-- A client on the fixture store on which every transport call succeeds. -/
def clientAllOk : S3ClientModel :=
  ⟨clientPages, fun _ => false, fun _ _ _ => false, fun _ _ => false⟩

/-- A client on the fixture store whose copy to the error directory fails
(one failing move). -/
def clientFailOne : S3ClientModel :=
  ⟨clientPages, fun _ => false,
   fun _ dk _ => dk = "error/report_wrong_format.txt", fun _ _ => false⟩

/-- A client on the fixture store on which every copy fails (two failing
moves). -/
def clientFailTwo : S3ClientModel :=
  ⟨clientPages, fun _ => false, fun _ _ _ => true, fun _ _ => false⟩

/-- A client whose very first listing call raises a transport error. -/
def clientListFail : S3ClientModel :=
  ⟨clientPages, fun i => i = 0, fun _ _ _ => false, fun _ _ => false⟩

/-- Fixture configuration with a classification pattern. -/
def cfgPat : RunConfig :=
  ⟨"s3://src/in", "s3://dst/done/%Y/%m/%d/", "s3://dst/error/",
   some "CHARGINGCDR_.*-(\\d{8})-.*.ber", "%Y%m%d", 86400, 500, 10, 4⟩

/-- Fixture configuration with no classification pattern configured. -/
def cfgNoPat : RunConfig :=
  ⟨"s3://src/in", "s3://dst/done/%Y/%m/%d/", "s3://dst/error/",
   none, "%Y%m%d", 86400, 500, 10, 4⟩

/-- Fixture store state holding the two listed objects. -/
def worldTwo : S3World :=
  ⟨[("src", "in/CHARGINGCDR_4008-BROCC3-20240901-234125-56908.ber"),
    ("src", "in/report_wrong_format.txt")]⟩

/-- The single `datetime.now()` sample of the fixture run. -/
def now0 : DateTime := ⟨2024, 9, 2, 12, 0, 0⟩

/-- The fixture run's process date (`now - timedelta(seconds=86400)`). -/
def procDate : DateTime := pyDatetimeSub now0 86400

/-- The store after the fixture run's first move (the CDR file relocated to
its dated directory). -/
def worldAfterFirst : S3World :=
  ⟨[("dst", "done/2024/09/01/CHARGINGCDR_4008-BROCC3-20240901-234125-56908.ber"),
    ("src", "in/report_wrong_format.txt")]⟩

/-- The second task of the `clientFailOne` fixture run: the unclassifiable
report routed to the error directory, whose copy fails. -/
def taskErrFailOne : TaskResult :=
  ⟨"src/in/report_wrong_format.txt", "s3://dst/error/",
   move_files_to_s3 clientFailOne worldAfterFirst
     "src/in/report_wrong_format.txt" "s3://dst/error/"⟩

/-- The second task of the all-success fixture run. -/
def taskErrAllOk : TaskResult :=
  ⟨"src/in/report_wrong_format.txt", "s3://dst/error/",
   move_files_to_s3 clientAllOk worldAfterFirst
     "src/in/report_wrong_format.txt" "s3://dst/error/"⟩

/- ### Helper lemmas -/

/-- Folding append over strings from an arbitrary initial string. -/
theorem string_foldl_append_init (l : List String) (init : String) :
    l.foldl (· ++ ·) init = init ++ l.foldl (· ++ ·) "" := by
  induction l generalizing init with
  | nil => simp
  | cons a t ih =>
    simp only [List.foldl_cons]
    rw [ih (init ++ a), ih ("" ++ a), String.append_assoc]
    simp

/-- Unfolding lemma for `String.join` on a cons cell. -/
theorem string_join_cons (a : String) (t : List String) :
    String.join (a :: t) = a ++ String.join t := by
  simpa [String.join] using string_foldl_append_init t a

/-- `String.join` distributes over list append. -/
theorem string_join_append (l1 l2 : List String) :
    String.join (l1 ++ l2) = String.join l1 ++ String.join l2 := by
  induction l1 with
  | nil => simp [String.join]
  | cons a t ih =>
    rw [List.cons_append, string_join_cons, string_join_cons, ih, String.append_assoc]

/- ### C1, C2: DateExtractor -/

/-- C1: whenever the pattern compiles, its search matches the filename, and
the concatenation of the capture-group texts, in group order with no
separator, parses cleanly under the format, `extract_datetime_from_filename`
returns exactly the timestamp obtained by parsing that concatenated string,
with no diagnostic. -/
theorem extract_matched_groups_parse_to_timestamp (engine : RegexEngine)
    (filename pat fmt : String) (search : String → Option (List (Option String)))
    (groups : List (Option String)) (ts : DateTime)
    (he : engine pat = some search)
    (hs : search filename = some groups)
    (hp : pyStrptime (String.join (groups.map pyStrGroup)) fmt = Except.ok ts) :
    extract_datetime_from_filename engine filename pat fmt = Except.ok (some ts, []) := by
  simp [extract_datetime_from_filename, he, hs, hp]

/-- Witness for C1 at the spec's own example: the single 8-digit group of the
charging-CDR filename parses under `%Y%m%d` to 2024-09-01 00:00:00. -/
theorem extract_matched_groups_parse_to_timestamp_witness :
    extract_datetime_from_filename engineFixture
      "CHARGINGCDR_4008-BROCC3-20240901-234125-56908.ber"
      "CHARGINGCDR_.*-(\\d{8})-.*.ber" "%Y%m%d"
      = Except.ok (some ⟨2024, 9, 1, 0, 0, 0⟩, []) :=
  extract_matched_groups_parse_to_timestamp engineFixture
    "CHARGINGCDR_4008-BROCC3-20240901-234125-56908.ber"
    "CHARGINGCDR_.*-(\\d{8})-.*.ber" "%Y%m%d" searchCDR1
    [some "20240901"] ⟨2024, 9, 1, 0, 0, 0⟩ rfl (by decide) rfl

/-- C2 (amended): the extractor resolves every `ValueError` internally — a
failed search yields `Unclassified` with the "no match found" diagnostic, and
a joined group string that fails to parse yields `Unclassified` with the
"fail to convert date" diagnostic — but it is not exception-free: compiling a
syntactically invalid pattern raises `re.error` before the handler (line
283), and a duplicate-directive format makes `strptime` raise `re.error`,
which `except ValueError` (line 299) does not catch.  Exactly these two
`re.error` paths escape the extractor, and nothing else does. -/
theorem extract_outcomes_characterized (engine : RegexEngine)
    (filename pat fmt : String) :
    (engine pat = none ∧
      extract_datetime_from_filename engine filename pat fmt
        = Except.error PyError.reError) ∨
    (∃ search, engine pat = some search ∧
      ((search filename = none ∧
        extract_datetime_from_filename engine filename pat fmt
          = Except.ok (none, [Diag.noMatchFound filename pat])) ∨
      (∃ groups, search filename = some groups ∧
        ((pyStrptime (String.join (groups.map pyStrGroup)) fmt
              = Except.error PyError.valueError ∧
          extract_datetime_from_filename engine filename pat fmt
            = Except.ok (none, [Diag.failToConvert filename pat
                (String.join (groups.map pyStrGroup)) fmt])) ∨
        (pyStrptime (String.join (groups.map pyStrGroup)) fmt
              = Except.error PyError.reError ∧
          extract_datetime_from_filename engine filename pat fmt
            = Except.error PyError.reError) ∨
        (∃ ts, pyStrptime (String.join (groups.map pyStrGroup)) fmt = Except.ok ts ∧
          extract_datetime_from_filename engine filename pat fmt
            = Except.ok (some ts, [])))))) := by
  cases he : engine pat with
  | none => exact Or.inl ⟨rfl, by simp [extract_datetime_from_filename, he]⟩
  | some search =>
    refine Or.inr ⟨search, rfl, ?_⟩
    cases hs : search filename with
    | none => exact Or.inl ⟨rfl, by simp [extract_datetime_from_filename, he, hs]⟩
    | some groups =>
      refine Or.inr ⟨groups, rfl, ?_⟩
      cases hp : pyStrptime (String.join (groups.map pyStrGroup)) fmt with
      | error e =>
        cases e with
        | valueError =>
          exact Or.inl ⟨rfl, by simp [extract_datetime_from_filename, he, hs, hp]⟩
        | reError =>
          exact Or.inr (Or.inl ⟨rfl, by simp [extract_datetime_from_filename, he, hs, hp]⟩)
      | ok ts =>
        exact Or.inr (Or.inr ⟨ts, rfl, by simp [extract_datetime_from_filename, he, hs, hp]⟩)

/-- Counterexample to C2 as stated: the extractor can throw outward.  A
syntactically invalid pattern makes `re.compile` (line 283, outside the
`try`) raise `re.error`, and the duplicate-directive format `"%Y%Y"` makes
`strptime` raise `re.error` from its internal regex compilation, which the
`except ValueError` at line 299 does not catch — in both cases the exception
escapes the extractor instead of resolving to `Unclassified`. -/
theorem extract_throws_reError_cex :
    extract_datetime_from_filename engineFixture "report_2024.txt" "(" "%Y%m%d"
      = Except.error PyError.reError ∧
    pyStrptime "20242025" "%Y%Y" = Except.error PyError.reError ∧
    extract_datetime_from_filename engineDupFixture "x-20242025.log"
      "(\\d{4})(\\d{4})" "%Y%Y" = Except.error PyError.reError := by
  exact ⟨rfl, rfl, rfl⟩

/- ### C9: parse_s3_uri -/

/-- Splitting succeeds exactly when a separator occurs, and decomposes the
input around the first separator. -/
theorem splitFirstSlash_spec (l : List Char) :
    (splitFirstSlash l = none ↔ '/' ∉ l) ∧
    (∀ a b, splitFirstSlash l = some (a, b) → l = a ++ '/' :: b ∧ '/' ∉ a) := by
  induction l with
  | nil => simp [splitFirstSlash]
  | cons c rest ih =>
    by_cases hc : c = '/'
    · subst hc
      constructor
      · simp [splitFirstSlash]
      · intro a b h
        simp [splitFirstSlash] at h
        simp [h.1, h.2]
    · constructor
      · simp only [splitFirstSlash, if_neg hc]
        cases hs : splitFirstSlash rest with
        | none => simpa [hc, Ne.symm hc] using (ih.1.mp hs)
        | some p =>
          simp only [List.mem_cons]
          constructor
          · intro h; exact absurd h (by simp)
          · intro h
            obtain ⟨hdec, _⟩ := ih.2 p.1 p.2 (by simpa using hs)
            exact absurd (Or.inr (hdec ▸ (by simp : '/' ∈ p.1 ++ '/' :: p.2))) h
      · intro a b h
        simp only [splitFirstSlash, if_neg hc] at h
        cases hs : splitFirstSlash rest with
        | none => rw [hs] at h; exact absurd h (by simp)
        | some p =>
          rw [hs] at h
          obtain ⟨a0, b0⟩ := p
          simp only [Option.some.injEq, Prod.mk.injEq] at h
          obtain ⟨ha, hb⟩ := h
          obtain ⟨hrest, hna⟩ := ih.2 a0 b0 hs
          subst ha hb
          constructor
          · simp [hrest]
          · simp only [List.mem_cons, not_or]
            exact ⟨fun h => hc h.symm, hna⟩

/-- C9 (amended): `parse_s3_uri` removes every occurrence of the scheme text
`"s3://"` anywhere in the URI (Python `str.replace`, not a prefix strip),
then splits what remains on the first path separator into bucket and key; it
fails exactly when no separator remains after the removal. -/
theorem parse_s3_uri_replace_then_split (s : String) :
    (parse_s3_uri s = none ↔ '/' ∉ pyReplace s.toList "s3://".toList []) ∧
    (∀ b k, parse_s3_uri s = some (b, k) →
      pyReplace s.toList "s3://".toList [] = b.toList ++ '/' :: k.toList ∧
      '/' ∉ b.toList) := by
  constructor
  · unfold parse_s3_uri
    cases hs : splitFirstSlash (pyReplace s.toList "s3://".toList []) with
    | none => simpa using (splitFirstSlash_spec _).1.mp hs
    | some p =>
      simp only []
      constructor
      · intro h; exact absurd h (by simp)
      · intro h
        obtain ⟨hdec, _⟩ := (splitFirstSlash_spec _).2 p.1 p.2 (by simpa using hs)
        exact absurd (hdec ▸ (by simp : '/' ∈ p.1 ++ '/' :: p.2)) (fun hmem => h hmem)
  · intro b k h
    unfold parse_s3_uri at h
    cases hs : splitFirstSlash (pyReplace s.toList "s3://".toList []) with
    | none => rw [hs] at h; exact absurd h (by simp)
    | some p =>
      rw [hs] at h
      obtain ⟨a0, b0⟩ := p
      simp only [Option.some.injEq, Prod.mk.injEq] at h
      obtain ⟨hdec, hna⟩ := (splitFirstSlash_spec _).2 a0 b0 hs
      constructor
      · rw [← h.1, ← h.2]; simpa using hdec
      · rw [← h.1]; simpa using hna

/-- Witness for the amended C9 at a well-formed locator: the bucket is what
precedes the first separator and the key is everything after it. -/
theorem parse_s3_uri_replace_then_split_witness :
    parse_s3_uri "s3://bucket/a/b.txt" = some ("bucket", "a/b.txt") ∧
    pyReplace "s3://bucket/a/b.txt".toList "s3://".toList []
      = "bucket".toList ++ '/' :: "a/b.txt".toList := by
  refine ⟨by decide, ?_⟩
  exact ((parse_s3_uri_replace_then_split "s3://bucket/a/b.txt").2
    "bucket" "a/b.txt" (by decide)).1

/-- Counterexample to C9 as stated: the scheme text is removed from the
middle of the key as well, so `parse_s3_uri` is not the spec's
strip-leading-scheme-then-split codec.  On `"s3://b/as3://c"` the code yields
key `"ac"` while stripping one leading scheme and splitting yields key
`"as3://c"`. -/
theorem parse_s3_uri_not_prefix_strip_cex :
    parse_s3_uri "s3://b/as3://c" = some ("b", "ac") ∧
    spec_parse_strip "s3://b/as3://c" = some ("b", "as3://c") ∧
    parse_s3_uri "s3://b/as3://c" ≠ spec_parse_strip "s3://b/as3://c" := by
  refine ⟨by decide, by decide, by decide⟩

/- ### C4: Mover copy-then-delete -/

/-- C4: in every mover call whose locators parse, the delete is issued only
after the copy reported success — if a delete appears in the transport trace
then the copy succeeded and preceded it; if the copy fails the store is
untouched (the source is never deleted); and an object present at the source
beforehand is afterwards present at the source, at the destination, or both. -/
theorem mover_copy_then_delete (client : S3ClientModel) (w : S3World)
    (source_path destination_dir sb sk db dd : String)
    (hs : parse_s3_uri source_path = some (sb, sk))
    (hd : parse_s3_uri destination_dir = some (db, dd)) :
    (∀ b k, S3Op.delete b k ∈ (move_files_to_s3 client w source_path destination_dir).trace →
      copyOk client db (os_path_join dd (os_path_basename sk)) source_path sb sk = true ∧
      (move_files_to_s3 client w source_path destination_dir).trace
        = [S3Op.copy db (os_path_join dd (os_path_basename sk)) source_path,
           S3Op.delete sb sk]) ∧
    (copyOk client db (os_path_join dd (os_path_basename sk)) source_path sb sk = false →
      (move_files_to_s3 client w source_path destination_dir).world = w ∧
      (move_files_to_s3 client w source_path destination_dir).outcome = MoveOutcome.failed ∧
      (move_files_to_s3 client w source_path destination_dir).trace
        = [S3Op.copy db (os_path_join dd (os_path_basename sk)) source_path]) ∧
    ((sb, sk) ∈ w.objects →
      (sb, sk) ∈ (move_files_to_s3 client w source_path destination_dir).world.objects ∨
      (db, os_path_join dd (os_path_basename sk))
        ∈ (move_files_to_s3 client w source_path destination_dir).world.objects) := by
  simp only [move_files_to_s3, hs, hd]
  by_cases hcopy : copyOk client db (os_path_join dd (os_path_basename sk)) source_path sb sk = true
  · rw [if_pos hcopy]
    by_cases hdel : client.deleteFails sb sk = true
    · rw [if_pos hdel]
      refine ⟨fun b k _ => ⟨hcopy, rfl⟩, fun hf => absurd hcopy (by simp [hf]), fun _ => ?_⟩
      exact Or.inr (by simp [s3thaw])
    · rw [if_neg hdel]
      refine ⟨fun b k _ => ⟨hcopy, rfl⟩, fun hf => absurd hcopy (by simp [hf]), fun _ => ?_⟩
      refine Or.inr ?_
      have hne : ¬(db = sb ∧ os_path_join dd (os_path_basename sk) = sk) := by
        intro heq
        simp [copyOk, heq.1, heq.2] at hcopy
      simp only [s3erase, s3thaw, List.mem_filter, List.mem_cons]
      refine ⟨Or.inl trivial, ?_⟩
      simp only [decide_eq_true_eq, ne_eq, Prod.mk.injEq]
      intro hpair
      exact hne ⟨hpair.1, hpair.2⟩
  · rw [if_neg hcopy]
    refine ⟨fun b k hmem => absurd hmem (by simp), fun _ => ⟨rfl, rfl, rfl⟩, fun hw => Or.inl hw⟩

/-- Witness for C4: a concrete mover call whose copy fails leaves the store
unchanged, issues no delete, and the object stays at its source. -/
theorem mover_copy_then_delete_witness :
    (move_files_to_s3 clientFailTwo worldTwo
        "src/in/report_wrong_format.txt" "s3://dst/error/").world = worldTwo ∧
    (move_files_to_s3 clientFailTwo worldTwo
        "src/in/report_wrong_format.txt" "s3://dst/error/").trace
      = [S3Op.copy "dst" "error/report_wrong_format.txt" "src/in/report_wrong_format.txt"] ∧
    (("src", "in/report_wrong_format.txt")
        ∈ (move_files_to_s3 clientFailTwo worldTwo
            "src/in/report_wrong_format.txt" "s3://dst/error/").world.objects ∨
      ("dst", "error/report_wrong_format.txt")
        ∈ (move_files_to_s3 clientFailTwo worldTwo
            "src/in/report_wrong_format.txt" "s3://dst/error/").world.objects) := by
  have h := mover_copy_then_delete clientFailTwo worldTwo
    "src/in/report_wrong_format.txt" "s3://dst/error/"
    "src" "in/report_wrong_format.txt" "dst" "error/" (by decide) (by decide)
  refine ⟨(h.2.1 (by decide)).1, ?_, h.2.2 (by decide)⟩
  have htr := (h.2.1 (by decide)).2.2
  rw [htr]
  decide

/- ### C10: non-participating groups join as the text "None" -/

/-- A consumed alternative token is a decomposition of the input. -/
theorem takeAlt_append (alt : List (Nat × Nat)) :
    ∀ s tok rest, takeAlt alt s = some (tok, rest) → s = tok ++ rest := by
  induction alt with
  | nil => intro s tok rest h; simp [takeAlt] at h; simp [h.1, h.2]
  | cons r rs ih =>
    intro s tok rest h
    cases s with
    | nil => simp [takeAlt] at h
    | cons c cs =>
      simp only [takeAlt] at h
      by_cases hr : r.1 ≤ c.toNat ∧ c.toNat ≤ r.2
      · rw [if_pos hr] at h
        cases hrec : takeAlt rs cs with
        | none => rw [hrec] at h; exact absurd h (by simp)
        | some p =>
          rw [hrec] at h
          obtain ⟨tok0, rest0⟩ := p
          simp only [Option.some.injEq, Prod.mk.injEq] at h
          rw [← h.1, ← h.2]
          simpa using ih cs tok0 rest0 hrec
      · rw [if_neg hr] at h; exact absurd h (by simp)

/-- When every range of the alternative lies inside the digit codepoints, the
consumed token consists of digits only. -/
theorem takeAlt_digits (alt : List (Nat × Nat)) :
    ∀ s tok rest, takeAlt alt s = some (tok, rest) →
    (∀ r ∈ alt, 48 ≤ r.1 ∧ r.2 ≤ 57) →
    ∀ c ∈ tok, 48 ≤ c.toNat ∧ c.toNat ≤ 57 := by
  induction alt with
  | nil => intro s tok rest h _; simp [takeAlt] at h; simp [h.1]
  | cons r rs ih =>
    intro s tok rest h hd
    cases s with
    | nil => simp [takeAlt] at h
    | cons c cs =>
      simp only [takeAlt] at h
      by_cases hr : r.1 ≤ c.toNat ∧ c.toNat ≤ r.2
      · rw [if_pos hr] at h
        cases hrec : takeAlt rs cs with
        | none => rw [hrec] at h; exact absurd h (by simp)
        | some p =>
          rw [hrec] at h
          obtain ⟨tok0, rest0⟩ := p
          simp only [Option.some.injEq, Prod.mk.injEq] at h
          rw [← h.1]
          intro x hx
          rcases List.mem_cons.mp hx with hx | hx
          · subst hx
            have hr0 := hd r (by simp)
            exact ⟨le_trans hr0.1 hr.1, le_trans hr.2 hr0.2⟩
          · exact ih cs tok0 rest0 hrec (fun q hq => hd q (by simp [hq])) x hx
      · rw [if_neg hr] at h; exact absurd h (by simp)

/-- Backtracking over digit-only alternatives consumes a digit-only chunk of
the input, provided the continuation does the same. -/
theorem tryAlts_digits (next : List Char → Option (List (Dir × Nat) × List Char)) (dir : Dir)
    (hnext : ∀ s1 vals1 rem1, next s1 = some (vals1, rem1) →
      ∃ con, s1 = con ++ rem1 ∧ ∀ c ∈ con, 48 ≤ c.toNat ∧ c.toNat ≤ 57) :
    ∀ alts s vals rem,
    (∀ alt ∈ alts, ∀ r ∈ alt, 48 ≤ r.1 ∧ r.2 ≤ 57) →
    tryAlts next dir alts s = some (vals, rem) →
    ∃ con, s = con ++ rem ∧ ∀ c ∈ con, 48 ≤ c.toNat ∧ c.toNat ≤ 57 := by
  intro alts
  induction alts with
  | nil => intro s vals rem _ h; simp [tryAlts] at h
  | cons alt alts ih =>
    intro s vals rem halts h
    cases hta : takeAlt alt s with
    | none =>
      simp only [tryAlts, hta] at h
      exact ih s vals rem (fun a ha => halts a (by simp [ha])) h
    | some p =>
      obtain ⟨tok, rest⟩ := p
      cases hn : next rest with
      | none =>
        simp only [tryAlts, hta, hn] at h
        exact ih s vals rem (fun a ha => halts a (by simp [ha])) h
      | some q =>
        obtain ⟨vals1, rem1⟩ := q
        simp only [tryAlts, hta, hn, Option.some.injEq, Prod.mk.injEq] at h
        obtain ⟨con, hc, hdig⟩ := hnext rest vals1 rem1 hn
        refine ⟨tok ++ con, ?_, ?_⟩
        · rw [← h.2, takeAlt_append alt s tok rest hta, hc, List.append_assoc]
        · intro c hc2
          rcases List.mem_append.mp hc2 with hc2 | hc2
          · exact takeAlt_digits alt s tok rest hta
              (fun r hr => halts alt (by simp) r hr) c hc2
          · exact hdig c hc2

/-- Every alternative of a conversion directive (not a literal) is made of
digit codepoint ranges. -/
theorem dirAlts_digits (dir : Dir)
    (h : (match dir with | Dir.lit _ => false | _ => true) = true) :
    ∀ alt ∈ dirAlts dir, ∀ r ∈ alt, 48 ≤ r.1 ∧ r.2 ≤ 57 := by
  cases dir with
  | lit c => exact absurd h (by simp)
  | Y => decide
  | m => decide
  | d => decide
  | H => decide
  | M => decide
  | S => decide

/-- A successful directive-sequence match over conversion directives only
consumes a digit-only chunk of the input. -/
theorem matchDirsF_digits (fuel : Nat) :
    ∀ ds s vals rem, matchDirsF fuel ds s = some (vals, rem) →
    (∀ d ∈ ds, (match d with | Dir.lit _ => false | _ => true) = true) →
    ∃ con, s = con ++ rem ∧ ∀ c ∈ con, 48 ≤ c.toNat ∧ c.toNat ≤ 57 := by
  induction fuel with
  | zero => intro ds s vals rem h _; simp [matchDirsF] at h
  | succ fuel ih =>
    intro ds s vals rem h hds
    cases ds with
    | nil =>
      simp only [matchDirsF, Option.some.injEq, Prod.mk.injEq] at h
      exact ⟨[], by simp [h.2], by simp⟩
    | cons dir ds =>
      simp only [matchDirsF] at h
      exact tryAlts_digits (matchDirsF fuel ds) dir
        (fun s1 vals1 rem1 h1 => ih ds s1 vals1 rem1 h1
          (fun d hd => hds d (by simp [hd])))
        (dirAlts dir) s vals rem
        (fun alt halt => dirAlts_digits dir (hds dir (by simp)) alt halt) h

/-- A string accepted by `strptime` under a digit-only format consists of
decimal digits only. -/
theorem pyStrptime_digitOnly_all_digits (s fmt : String) (dt : DateTime)
    (h : pyStrptime s fmt = Except.ok dt) (hfmt : digitOnlyFormat fmt = true) :
    ∀ c ∈ s.toList, 48 ≤ c.toNat ∧ c.toNat ≤ 57 := by
  unfold pyStrptime at h
  unfold digitOnlyFormat at hfmt
  cases hpf : parseFormat fmt.toList with
  | none => rw [hpf] at hfmt; exact absurd hfmt (by simp)
  | some ds =>
    simp only [hpf] at h hfmt
    rw [Bool.and_eq_true] at hfmt
    have hdup : dupConvDir ds = false := by simpa using hfmt.2
    rw [if_neg (by simp [hdup])] at h
    cases hm : matchDirs ds s.toList with
    | none => simp only [hm] at h; exact absurd h (by simp)
    | some p =>
      obtain ⟨vals, rem⟩ := p
      simp only [hm] at h
      by_cases hrem : rem = []
      · obtain ⟨con, hc, hdig⟩ := matchDirsF_digits (ds.length + 1) ds s.toList vals rem hm
          (fun d hd => by simpa using List.all_eq_true.mp hfmt.1 d hd)
        subst hrem
        intro c hc2
        rw [hc] at hc2
        exact hdig c (by simpa using hc2)
      · rw [if_neg hrem] at h; exact absurd h (by simp)

/-- Whenever `strptime` raises `re.error` the format repeats a conversion
directive. -/
theorem pyStrptime_reError_raises (s fmt : String)
    (h : pyStrptime s fmt = Except.error PyError.reError) :
    strptimeRaisesRe fmt = true := by
  unfold pyStrptime at h
  unfold strptimeRaisesRe
  split at h
  · exact absurd h (by simp)
  · rename_i ds hpf
    by_cases hdup : dupConvDir ds = true
    · exact hdup
    · rw [if_neg hdup] at h
      split at h
      · exact absurd h (by simp)
      · split at h
        · split at h
          · exact absurd h (by simp)
          · exact absurd h (by simp)
        · exact absurd h (by simp)

/-- Under a digit-only format (which by definition repeats no conversion
directive) `strptime` never raises `re.error`. -/
theorem pyStrptime_no_reError (s fmt : String) (hfmt : digitOnlyFormat fmt = true) :
    pyStrptime s fmt ≠ Except.error PyError.reError := by
  intro h
  have hra := pyStrptime_reError_raises s fmt h
  unfold digitOnlyFormat at hfmt
  unfold strptimeRaisesRe at hra
  cases hpf : parseFormat fmt.toList with
  | none => rw [hpf] at hfmt; exact absurd hfmt (by simp)
  | some ds =>
    simp only [hpf] at hfmt hra
    rw [Bool.and_eq_true] at hfmt
    rw [hra] at hfmt
    exact absurd hfmt.2 (by simp)

/-- C10: when the pattern compiles and its search matches but an optional
capture group does not participate, the extractor joins the literal
four-character text `"None"` for that group into the string it parses; under
a digit-only datetime format the parse therefore fails with a `ValueError`
and the file classifies as unclassified (rather than the participating
groups alone being used). -/
theorem optional_group_joins_none_text (engine : RegexEngine)
    (filename pat fmt : String) (search : String → Option (List (Option String)))
    (g1 g2 : List (Option String))
    (he : engine pat = some search)
    (hs : search filename = some (g1 ++ none :: g2))
    (hfmt : digitOnlyFormat fmt = true) :
    String.join ((g1 ++ none :: g2).map pyStrGroup)
      = String.join (g1.map pyStrGroup) ++ "None" ++ String.join (g2.map pyStrGroup) ∧
    extract_datetime_from_filename engine filename pat fmt
      = Except.ok (none, [Diag.failToConvert filename pat
          (String.join ((g1 ++ none :: g2).map pyStrGroup)) fmt]) := by
  have hjoin : String.join ((g1 ++ none :: g2).map pyStrGroup)
      = String.join (g1.map pyStrGroup) ++ "None" ++ String.join (g2.map pyStrGroup) := by
    rw [List.map_append, List.map_cons, string_join_append, string_join_cons,
      ← String.append_assoc]
    rfl
  refine ⟨hjoin, ?_⟩
  have hN : 'N' ∈ (String.join ((g1 ++ none :: g2).map pyStrGroup)).toList := by
    rw [hjoin]
    show 'N' ∈ (String.join (g1.map pyStrGroup) ++ "None"
      ++ String.join (g2.map pyStrGroup)).data
    simp [String.data]
  have hp : pyStrptime (String.join ((g1 ++ none :: g2).map pyStrGroup)) fmt
      = Except.error PyError.valueError := by
    cases hps : pyStrptime (String.join ((g1 ++ none :: g2).map pyStrGroup)) fmt with
    | ok dt =>
      have := pyStrptime_digitOnly_all_digits _ fmt dt hps hfmt 'N' hN
      exact absurd this.2 (by decide)
    | error e =>
      cases e with
      | valueError => rfl
      | reError => exact absurd hps (pyStrptime_no_reError _ fmt hfmt)
  have hp2 : pyStrptime (String.join
      (List.map pyStrGroup g1 ++ pyStrGroup none :: List.map pyStrGroup g2)) fmt
      = Except.error PyError.valueError := by
    simpa using hp
  simp [extract_datetime_from_filename, he, hs, hp2]

/-- Witness for C10: the joined string is `"20240901" ++ "None" ++ ""` and the
extractor reports a conversion failure under `%Y%m%d%H`. -/
theorem optional_group_joins_none_text_witness :
    String.join (([some "20240901"] ++ none :: ([] : List (Option String))).map pyStrGroup)
      = String.join ([some "20240901"].map pyStrGroup) ++ "None"
        ++ String.join (([] : List (Option String)).map pyStrGroup) ∧
    extract_datetime_from_filename engineOptFixture "CHARGINGCDR_X-20240901.ber"
      "CHARGINGCDR_.*-(\\d{8})-?(\\d{2})?\\.ber" "%Y%m%d%H"
      = Except.ok (none, [Diag.failToConvert "CHARGINGCDR_X-20240901.ber"
          "CHARGINGCDR_.*-(\\d{8})-?(\\d{2})?\\.ber"
          (String.join (([some "20240901"] ++ none :: ([] : List (Option String))).map pyStrGroup))
          "%Y%m%d%H"]) :=
  optional_group_joins_none_text engineOptFixture "CHARGINGCDR_X-20240901.ber"
    "CHARGINGCDR_.*-(\\d{8})-?(\\d{2})?\\.ber" "%Y%m%d%H" searchOpt1 [some "20240901"] []
    rfl (by decide) (by decide)

/- ### Run-level structure lemmas -/

/-- The mover's exit depends only on its own arguments and the failure
oracle, never on the store state it runs against. -/
theorem move_outcome_world_independent (client : S3ClientModel) (s d : String) (w : S3World) :
    (move_files_to_s3 client w s d).outcome = moveOutcomeOf client s d := by
  rcases h1 : parse_s3_uri s with _ | ⟨sb, sk⟩
  · simp [move_files_to_s3, moveOutcomeOf, h1]
  · rcases h2 : parse_s3_uri d with _ | ⟨db, dd⟩
    · simp [move_files_to_s3, moveOutcomeOf, h1, h2]
    · simp only [move_files_to_s3, moveOutcomeOf, h1, h2]
      split_ifs <;> rfl

/-- A failed mover call logs the error record carrying its source path and
destination directory. -/
theorem move_failed_logged (client : S3ClientModel) (w : S3World) (s d : String) :
    (move_files_to_s3 client w s d).outcome = MoveOutcome.failed →
    Diag.errorMoving s d ∈ (move_files_to_s3 client w s d).diags := by
  rcases h1 : parse_s3_uri s with _ | ⟨sb, sk⟩
  · intro _; simp [move_files_to_s3, h1]
  · rcases h2 : parse_s3_uri d with _ | ⟨db, dd⟩
    · intro _; simp [move_files_to_s3, h1, h2]
    · simp only [move_files_to_s3, h1, h2]
      split_ifs <;> intro h
      · simp
      · exact absurd h (by simp)
      · simp

/-- Exactly when the configuration-level condition holds, no classification
can raise. -/
theorem classify_total (engine : RegexEngine) (cfg : RunConfig)
    (hsafe : classifyTotal engine cfg = true) (dd : DateTime) (f : String) :
    ∃ cr, classify_date engine cfg dd f = Except.ok cr := by
  unfold classifyTotal at hsafe
  by_cases hpat : patTruthy cfg.match_pattern = true
  · rw [Bool.or_eq_true] at hsafe
    rcases hsafe with hsafe | hsafe
    · exact absurd hpat (by simpa using hsafe)
    · rw [Bool.and_eq_true] at hsafe
      obtain ⟨hcomp, hdup⟩ := hsafe
      unfold classify_date
      rw [if_pos hpat]
      cases he : engine (cfg.match_pattern.getD "") with
      | none => rw [he] at hcomp; exact absurd hcomp (by simp)
      | some search =>
        cases hs : search (os_path_basename f) with
        | none =>
          exact ⟨(none, [Diag.noMatchFound (os_path_basename f) (cfg.match_pattern.getD "")]),
            by simp [extract_datetime_from_filename, he, hs]⟩
        | some groups =>
          cases hp : pyStrptime (String.join (groups.map pyStrGroup)) cfg.datetime_format with
          | ok ts =>
            exact ⟨(some ts, []), by simp [extract_datetime_from_filename, he, hs, hp]⟩
          | error e =>
            cases e with
            | valueError =>
              exact ⟨(none, [Diag.failToConvert (os_path_basename f)
                  (cfg.match_pattern.getD "")
                  (String.join (groups.map pyStrGroup)) cfg.datetime_format]),
                by simp [extract_datetime_from_filename, he, hs, hp]⟩
            | reError =>
              rw [pyStrptime_reError_raises _ _ hp] at hdup
              exact absurd hdup (by simp)
  · unfold classify_date
    rw [if_neg hpat]
    exact ⟨(some dd, []), rfl⟩

/-- Every task a page produces comes from a classification that returned (no
exception), carries the routed destination of its own file, an outcome
independent of its siblings, and — when failed — its own error record. -/
theorem run_page_mem (client : S3ClientModel) (engine : RegexEngine) (cfg : RunConfig)
    (dd : DateTime) :
    ∀ files w t, t ∈ (run_page client engine cfg dd w files).1 →
      (∃ cr, classify_date engine cfg dd t.file = Except.ok cr ∧
        t.destination = route_of cfg cr.1) ∧
      t.move.outcome = moveOutcomeOf client t.file t.destination ∧
      (t.move.outcome = MoveOutcome.failed →
        Diag.errorMoving t.file t.destination ∈ t.move.diags) := by
  intro files
  induction files with
  | nil => intro w t ht; simp [run_page] at ht
  | cons f fs ih =>
    intro w t ht
    cases hcl : classify_date engine cfg dd f with
    | error e => simp [run_page, hcl] at ht
    | ok cr =>
      simp only [run_page, hcl, List.mem_cons] at ht
      rcases ht with ht | ht
      · subst ht
        exact ⟨⟨cr, hcl, rfl⟩, move_outcome_world_independent client f _ w,
          move_failed_logged client w f _⟩
      · exact ih _ t ht

/-- When no classification can raise, a page's tasks are exactly its input
files, in order, and the page reports no exception. -/
theorem run_page_files_total (client : S3ClientModel) (engine : RegexEngine)
    (cfg : RunConfig) (dd : DateTime)
    (htot : ∀ f, ∃ cr, classify_date engine cfg dd f = Except.ok cr) :
    ∀ files w, ((run_page client engine cfg dd w files).1).map (fun t => t.file) = files ∧
      (run_page client engine cfg dd w files).2.2 = none := by
  intro files
  induction files with
  | nil => intro w; exact ⟨rfl, rfl⟩
  | cons f fs ih =>
    intro w
    obtain ⟨cr, hcl⟩ := htot f
    simp only [run_page, hcl, List.map_cons]
    refine ⟨?_, (ih _).2⟩
    rw [(ih _).1]

/-- Task-level facts lifted over all pages of a run (no totality needed: a
task exists only where classification returned). -/
theorem run_pages_mem (client : S3ClientModel) (engine : RegexEngine) (cfg : RunConfig)
    (dd : DateTime) :
    ∀ pages w t, t ∈ ((run_pages client engine cfg dd w pages).1).flatten →
      (∃ cr, classify_date engine cfg dd t.file = Except.ok cr ∧
        t.destination = route_of cfg cr.1) ∧
      t.move.outcome = moveOutcomeOf client t.file t.destination ∧
      (t.move.outcome = MoveOutcome.failed →
        Diag.errorMoving t.file t.destination ∈ t.move.diags) := by
  intro pages
  induction pages with
  | nil => intro w t ht; simp [run_pages] at ht
  | cons page pages ih =>
    intro w t ht
    cases herr : (run_page client engine cfg dd w page).2.2 with
    | some e =>
      simp only [run_pages, herr, List.flatten_cons, List.flatten_nil,
        List.append_nil] at ht
      exact run_page_mem client engine cfg dd page w t ht
    | none =>
      simp only [run_pages, herr, List.flatten_cons, List.mem_append] at ht
      rcases ht with ht | ht
      · exact run_page_mem client engine cfg dd page w t ht
      · exact ih _ t ht

/-- When no classification can raise, the pages a run processes are exactly
the pages the paginator yields. -/
theorem run_pages_files_total (client : S3ClientModel) (engine : RegexEngine)
    (cfg : RunConfig) (dd : DateTime)
    (htot : ∀ f, ∃ cr, classify_date engine cfg dd f = Except.ok cr) :
    ∀ pages w,
      ((run_pages client engine cfg dd w pages).1).map (fun p => p.map (fun t => t.file))
        = pages := by
  intro pages
  induction pages with
  | nil => intro w; rfl
  | cons page pages ih =>
    intro w
    have hpage := run_page_files_total client engine cfg dd htot page w
    simp only [run_pages, hpage.2, List.map_cons, hpage.1]
    rw [ih]

/-- A run never processes more pages than the paginator yielded, whatever
exceptions occur. -/
theorem run_pages_len_le (client : S3ClientModel) (engine : RegexEngine) (cfg : RunConfig)
    (dd : DateTime) :
    ∀ pages w, ((run_pages client engine cfg dd w pages).1).length ≤ pages.length := by
  intro pages
  induction pages with
  | nil => intro w; simp [run_pages]
  | cons page pages ih =>
    intro w
    cases herr : (run_page client engine cfg dd w page).2.2 with
    | some e =>
      have h1 : ((run_pages client engine cfg dd w (page :: pages)).1).length = 1 := by
        simp [run_pages, herr]
      rw [h1, List.length_cons]
      exact Nat.succ_le_succ (Nat.zero_le _)
    | none =>
      simp only [run_pages, herr, List.length_cons]
      exact Nat.succ_le_succ (ih _)

/-- The pages field of a run is the pages component of `run_pages`, whichever
exception branch was taken. -/
theorem start_segregation_pages (client : S3ClientModel) (engine : RegexEngine)
    (cfg : RunConfig) (now : DateTime) (w : S3World) :
    (start_segregation client engine cfg now w).pages
      = (run_pages client engine cfg (pyDatetimeSub now cfg.time_delay) w
          (list_s3_get_files client cfg.s3_dir cfg.n_keys cfg.n_loops).pages).1 := by
  simp only [start_segregation]
  cases herr : (run_pages client engine cfg (pyDatetimeSub now cfg.time_delay) w
      (list_s3_get_files client cfg.s3_dir cfg.n_keys cfg.n_loops).pages).2.2 <;>
    simp [herr]

/- ### C3: routing determinism -/

/-- C3: in every run, every submitted task is routed deterministically from
its classification alone: an unclassified file's destination is the
configured error directory, verbatim and without date formatting, and a
dated file's destination is the segregated-directory template formatted with
its timestamp — nothing else about the object is consulted. -/
theorem routing_deterministic (client : S3ClientModel) (engine : RegexEngine)
    (cfg : RunConfig) (now : DateTime) (w : S3World) (t : TaskResult)
    (ht : t ∈ allTasks (start_segregation client engine cfg now w)) :
    (∀ ds, classify_date engine cfg (pyDatetimeSub now cfg.time_delay) t.file
        = Except.ok (none, ds) → t.destination = cfg.s3_error_dir) ∧
    (∀ ts ds, classify_date engine cfg (pyDatetimeSub now cfg.time_delay) t.file
        = Except.ok (some ts, ds) →
      t.destination = pyStrftime ts cfg.s3_segregated_dir) := by
  unfold allTasks at ht
  rw [start_segregation_pages] at ht
  obtain ⟨⟨cr, hcl, hdest⟩, -, -⟩ := run_pages_mem client engine cfg
    (pyDatetimeSub now cfg.time_delay)
    (list_s3_get_files client cfg.s3_dir cfg.n_keys cfg.n_loops).pages w t ht
  constructor
  · intro ds h
    have hcr : cr = (none, ds) := by simpa using hcl.symm.trans h
    rw [hdest, hcr]
    rfl
  · intro ts ds h
    have hcr : cr = (some ts, ds) := by simpa using hcl.symm.trans h
    rw [hdest, hcr]
    rfl

/-- Witness for C3 on the fixture run: the unclassifiable report's task is
routed to the error directory exactly as configured. -/
theorem routing_deterministic_witness :
    taskErrAllOk ∈ allTasks (start_segregation clientAllOk engineFixture cfgPat now0 worldTwo) ∧
    taskErrAllOk.destination = cfgPat.s3_error_dir := by
  have h := routing_deterministic clientAllOk engineFixture cfgPat now0 worldTwo
    taskErrAllOk (by decide)
  exact ⟨by decide, h.1 [Diag.noMatchFound "report_wrong_format.txt"
    "CHARGINGCDR_.*-(\\d{8})-.*.ber"] rfl⟩

/- ### C5: per-move fault isolation -/

/-- C5 (amended): a transport failure during one move is caught at the mover
boundary, logged with that move's source and destination, and turned into a
failed outcome for that task alone: under a configuration whose
classification cannot raise (the corrected-C2 escape paths are
config-determined), every page the paginator yields is processed in full —
no move failure aborts siblings or stops later pages — and each task's
outcome is a function of its own arguments and the failure oracle only.
(The source builds no run summary: move failures are observable only in the
log trail, see the counterexample.) -/
theorem move_failures_isolated (client : S3ClientModel) (engine : RegexEngine)
    (cfg : RunConfig) (now : DateTime) (w : S3World)
    (hsafe : classifyTotal engine cfg = true) :
    ((start_segregation client engine cfg now w).pages.map (fun p => p.map (fun t => t.file))
      = (list_s3_get_files client cfg.s3_dir cfg.n_keys cfg.n_loops).pages) ∧
    (∀ t ∈ allTasks (start_segregation client engine cfg now w),
      t.move.outcome = moveOutcomeOf client t.file t.destination) ∧
    (∀ t ∈ allTasks (start_segregation client engine cfg now w),
      t.move.outcome = MoveOutcome.failed →
        Diag.errorMoving t.file t.destination ∈ t.move.diags) := by
  have htot := classify_total engine cfg hsafe (pyDatetimeSub now cfg.time_delay)
  refine ⟨?_, fun t ht => ?_, fun t ht => ?_⟩
  · rw [start_segregation_pages]
    exact run_pages_files_total client engine cfg (pyDatetimeSub now cfg.time_delay) htot
      (list_s3_get_files client cfg.s3_dir cfg.n_keys cfg.n_loops).pages w
  · unfold allTasks at ht
    rw [start_segregation_pages] at ht
    exact (run_pages_mem client engine cfg (pyDatetimeSub now cfg.time_delay)
      (list_s3_get_files client cfg.s3_dir cfg.n_keys cfg.n_loops).pages w t ht).2.1
  · unfold allTasks at ht
    rw [start_segregation_pages] at ht
    exact (run_pages_mem client engine cfg (pyDatetimeSub now cfg.time_delay)
      (list_s3_get_files client cfg.s3_dir cfg.n_keys cfg.n_loops).pages w t ht).2.2

/-- Witness for the amended C5 on the fixture run with one failing copy: the
failing task is failed with its error record, while its sibling in the same
page and the page structure are unaffected. -/
theorem move_failures_isolated_witness :
    ((start_segregation clientFailOne engineFixture cfgPat now0 worldTwo).pages.map
        (fun p => p.map (fun t => t.file))
      = (list_s3_get_files clientFailOne cfgPat.s3_dir cfgPat.n_keys cfgPat.n_loops).pages) ∧
    taskErrFailOne.move.outcome = MoveOutcome.failed ∧
    taskErrFailOne.move.outcome
      = moveOutcomeOf clientFailOne taskErrFailOne.file taskErrFailOne.destination ∧
    Diag.errorMoving taskErrFailOne.file taskErrFailOne.destination
      ∈ taskErrFailOne.move.diags ∧
    failedCount (start_segregation clientFailOne engineFixture cfgPat now0 worldTwo) = 1 := by
  have h := move_failures_isolated clientFailOne engineFixture cfgPat now0 worldTwo
    (by decide)
  exact ⟨h.1, by decide, h.2.1 taskErrFailOne (by decide),
    h.2.2 taskErrFailOne (by decide) (by decide), by decide⟩

/-- Counterexample to C5 as stated: the code produces no run summary that
counts failed moves.  The only record emitted at run end (src/main.py 377)
carries nothing but the formatted process date: two fixture runs with one and
with two failed moves end with the identical final record, so no run-end
record reports the number of failed moves. -/
theorem run_summary_missing_failed_count_cex :
    failedCount (start_segregation clientFailOne engineFixture cfgPat now0 worldTwo) = 1 ∧
    failedCount (start_segregation clientFailTwo engineFixture cfgPat now0 worldTwo) = 2 ∧
    (main_log (start_segregation clientFailOne engineFixture cfgPat now0 worldTwo)
        procDate).getLast?
      = (main_log (start_segregation clientFailTwo engineFixture cfgPat now0 worldTwo)
        procDate).getLast? ∧
    (main_log (start_segregation clientFailOne engineFixture cfgPat now0 worldTwo)
        procDate).getLast? = some (Diag.finishInfo "20240901") := by
  exact ⟨by decide, by decide, by decide, by decide⟩

/- ### C7: fatal listing failure -/

/-- If the `k`-th listing call (counting from the loop start) raises, the
loop yields at most `k` pages. -/
theorem listLoop_fail_bound (client : S3ClientModel) (bucket : String) :
    ∀ fuel i k, client.listFails (i + k) = true →
      (listLoop client bucket i fuel).pages.length ≤ k := by
  intro fuel
  induction fuel with
  | zero => intro i k _; simp [listLoop]
  | succ fuel ih =>
    intro i k hk
    by_cases hf : client.listFails i = true
    · simp [listLoop, hf]
    · cases k with
      | zero => exact absurd (by simpa using hk) hf
      | succ k =>
        simp only [listLoop, if_neg hf]
        by_cases he : client.listResponse i = []
        · simp [he]
        · rw [if_neg he]
          by_cases hp : pageAt client bucket i = []
          · simp [hp]
          · rw [if_neg hp]
            simp only [List.length_cons, Nat.succ_le_succ_iff]
            exact ih (i + 1) k (by
              have : i + 1 + k = i + (k + 1) := by omega
              rw [this]; exact hk)

/-- C7 (amended): a listing transport failure stops the run immediately — no
page at or after the failing call is processed, and the caught error is the
run's recorded fatal — but the process still exits with status 0, because
`start_segregation` swallows the exception and `__main__` completes normally;
per-object move failures likewise never produce a non-zero exit. -/
theorem listing_failure_stops_run_exit_zero (client : S3ClientModel) (engine : RegexEngine)
    (cfg : RunConfig) (now : DateTime) (w : S3World) (k : Nat)
    (hk : client.listFails k = true) :
    (start_segregation client engine cfg now w).pages.length ≤ k ∧
    main_exit_code (start_segregation client engine cfg now w) = 0 := by
  refine ⟨?_, rfl⟩
  rw [start_segregation_pages]
  have hle := run_pages_len_le client engine cfg (pyDatetimeSub now cfg.time_delay)
    (list_s3_get_files client cfg.s3_dir cfg.n_keys cfg.n_loops).pages w
  refine le_trans hle ?_
  unfold list_s3_get_files
  cases hp : parse_s3_uri cfg.s3_dir with
  | none => simp
  | some p =>
    obtain ⟨b, d⟩ := p
    simpa using listLoop_fail_bound client b cfg.n_loops 0 k (by simpa using hk)

/-- Witness for the amended C7: on the fixture run whose first listing call
fails, no page is processed and the exit status is 0. -/
theorem listing_failure_stops_run_exit_zero_witness :
    (start_segregation clientListFail engineFixture cfgPat now0 worldTwo).pages.length ≤ 0 ∧
    main_exit_code (start_segregation clientListFail engineFixture cfgPat now0 worldTwo) = 0 :=
  listing_failure_stops_run_exit_zero clientListFail engineFixture cfgPat now0 worldTwo 0
    (by decide)

/-- Counterexample to C7 as stated: on a run whose first listing call raises
a transport error, the error is caught and logged and `__main__` finishes
normally, so the process exit status is 0, not non-zero as claimed. -/
theorem listing_failure_exit_nonzero_cex :
    (start_segregation clientListFail engineFixture cfgPat now0 worldTwo).pages = [] ∧
    (start_segregation clientListFail engineFixture cfgPat now0 worldTwo).fatalLogged
      = some FatalError.listTransport ∧
    Diag.fatalCaught FatalError.listTransport
      ∈ run_diags (start_segregation clientListFail engineFixture cfgPat now0 worldTwo) ∧
    main_exit_code (start_segregation clientListFail engineFixture cfgPat now0 worldTwo)
      = 0 := by
  exact ⟨by decide, by decide, by decide, rfl⟩

/- ### C8: default-date mode with no pattern configured -/

/-- With a falsy `match_pattern` the classification short-circuits to the
per-run default date, emits no diagnostic, and cannot raise. -/
theorem classify_noPattern (engine : RegexEngine) (cfg : RunConfig) (dd : DateTime)
    (f : String) (h : patTruthy cfg.match_pattern = false) :
    classify_date engine cfg dd f = Except.ok (some dd, []) := by
  simp [classify_date, h]

/-- With a falsy `match_pattern` the page processor never consults the regex
engine. -/
theorem run_page_engine_indep (client : S3ClientModel) (cfg : RunConfig) (dd : DateTime)
    (engine engine2 : RegexEngine) (h : patTruthy cfg.match_pattern = false) :
    ∀ files w,
      run_page client engine cfg dd w files = run_page client engine2 cfg dd w files := by
  intro files
  induction files with
  | nil => intro w; rfl
  | cons f fs ih =>
    intro w
    simp only [run_page, classify_noPattern engine cfg dd f h,
      classify_noPattern engine2 cfg dd f h, ih]

/-- With a falsy `match_pattern` a whole run never consults the regex
engine. -/
theorem run_pages_engine_indep (client : S3ClientModel) (cfg : RunConfig) (dd : DateTime)
    (engine engine2 : RegexEngine) (h : patTruthy cfg.match_pattern = false) :
    ∀ pages w,
      run_pages client engine cfg dd w pages = run_pages client engine2 cfg dd w pages := by
  intro pages
  induction pages with
  | nil => intro w; rfl
  | cons page pages ih =>
    intro w
    simp only [run_pages, run_page_engine_indep client cfg dd engine engine2 h page w, ih]

/-- C8: with no classification pattern configured (absent or empty, both
falsy), the extractor is bypassed — the run's observable behaviour is
identical under any regex engine — and every object classifies as dated with
the single per-run default `now - timeDelay` (the one `datetime.now()` sample
of src/main.py 322), so every task of the run is routed to the same formatted
destination. -/
theorem no_pattern_default_date_once_per_run (client : S3ClientModel)
    (engine engine2 : RegexEngine) (cfg : RunConfig) (now : DateTime) (w : S3World)
    (h : patTruthy cfg.match_pattern = false) :
    start_segregation client engine cfg now w = start_segregation client engine2 cfg now w ∧
    (∀ t ∈ allTasks (start_segregation client engine cfg now w),
      classify_date engine cfg (pyDatetimeSub now cfg.time_delay) t.file
        = Except.ok (some (pyDatetimeSub now cfg.time_delay), []) ∧
      t.destination = pyStrftime (pyDatetimeSub now cfg.time_delay) cfg.s3_segregated_dir) := by
  constructor
  · simp only [start_segregation]
    rw [run_pages_engine_indep client cfg (pyDatetimeSub now cfg.time_delay) engine engine2 h]
  · intro t ht
    refine ⟨classify_noPattern engine cfg (pyDatetimeSub now cfg.time_delay) t.file h, ?_⟩
    unfold allTasks at ht
    rw [start_segregation_pages] at ht
    obtain ⟨⟨cr, hcl, hdest⟩, -, -⟩ := run_pages_mem client engine cfg
      (pyDatetimeSub now cfg.time_delay)
      (list_s3_get_files client cfg.s3_dir cfg.n_keys cfg.n_loops).pages w t ht
    have hcr : cr = (some (pyDatetimeSub now cfg.time_delay), []) := by
      have := hcl.symm.trans
        (classify_noPattern engine cfg (pyDatetimeSub now cfg.time_delay) t.file h)
      simpa using this
    rw [hdest, hcr]
    rfl

/-- Witness for C8 on the fixture run without a pattern: two different regex
engines give the identical run, and both files land in the same dated
destination computed once from the run's clock sample. -/
theorem no_pattern_default_date_once_per_run_witness :
    start_segregation clientAllOk engineFixture cfgNoPat now0 worldTwo
      = start_segregation clientAllOk engineOptFixture cfgNoPat now0 worldTwo ∧
    (allTasks (start_segregation clientAllOk engineFixture cfgNoPat now0 worldTwo)).map
        (fun t => t.destination)
      = ["s3://dst/done/2024/09/01/", "s3://dst/done/2024/09/01/"] :=
  ⟨(no_pattern_default_date_once_per_run clientAllOk engineFixture engineOptFixture
      cfgNoPat now0 worldTwo (by decide)).1, by decide⟩

/- ### C6: paginator termination and page shape -/

/-- The listing loop never yields more pages than it has permitted
iterations. -/
theorem listLoop_len (client : S3ClientModel) (bucket : String) :
    ∀ fuel i, (listLoop client bucket i fuel).pages.length ≤ fuel := by
  intro fuel
  induction fuel with
  | zero => intro i; simp [listLoop]
  | succ fuel ih =>
    intro i
    by_cases hf : client.listFails i = true
    · simp [listLoop, hf]
    · simp only [listLoop, if_neg hf]
      by_cases he : client.listResponse i = []
      · simp [he]
      · rw [if_neg he]
        by_cases hp : pageAt client bucket i = []
        · simp [hp]
        · rw [if_neg hp]
          simp only [List.length_cons]
          exact Nat.succ_le_succ (ih (i + 1))

/-- The `j`-th page the loop yields is exactly the filtered content of the
`j`-th listing call after the loop start, and is non-empty. -/
theorem listLoop_pages (client : S3ClientModel) (bucket : String) :
    ∀ fuel i j, j < (listLoop client bucket i fuel).pages.length →
      (listLoop client bucket i fuel).pages.get? j = some (pageAt client bucket (i + j)) ∧
      pageAt client bucket (i + j) ≠ [] := by
  intro fuel
  induction fuel with
  | zero => intro i j h; simp [listLoop] at h
  | succ fuel ih =>
    intro i j h
    by_cases hf : client.listFails i = true
    · simp [listLoop, hf] at h
    · by_cases he : client.listResponse i = []
      · simp [listLoop, if_neg hf, he] at h
      · by_cases hp : pageAt client bucket i = []
        · simp [listLoop, if_neg hf, if_neg he, hp] at h
        · have heq : listLoop client bucket i (fuel + 1)
              = ⟨pageAt client bucket i :: (listLoop client bucket (i + 1) fuel).pages,
                 (listLoop client bucket (i + 1) fuel).fatal⟩ := by
            simp only [listLoop, if_neg hf, if_neg he, if_neg hp]
          rw [heq] at h
          rw [heq]
          cases j with
          | zero =>
            simp only [List.get?_cons_zero, Nat.add_zero]
            exact ⟨by simp, hp⟩
          | succ j =>
            simp only [List.get?_cons_succ]
            have h2 : j < (listLoop client bucket (i + 1) fuel).pages.length := by
              simpa using h
            have hadd : i + (j + 1) = (i + 1) + j := by omega
            rw [hadd]
            exact ih (i + 1) j h2

/-- When the loop ends without a fatal error and before exhausting its
iteration budget, the next listing call would contribute no real file: its
filtered page is empty (covering both an empty `Contents` and an
all-pseudo-directory page). -/
theorem listLoop_stop (client : S3ClientModel) (bucket : String) :
    ∀ fuel i, (listLoop client bucket i fuel).fatal = none →
      (listLoop client bucket i fuel).pages.length < fuel →
      pageAt client bucket (i + (listLoop client bucket i fuel).pages.length) = [] := by
  intro fuel
  induction fuel with
  | zero => intro i _ h; simp [listLoop] at h
  | succ fuel ih =>
    intro i hfat hlen
    by_cases hf : client.listFails i = true
    · simp [listLoop, hf] at hfat
    · by_cases he : client.listResponse i = []
      · have heq : listLoop client bucket i (fuel + 1) = ⟨[], none⟩ := by
          simp only [listLoop, if_neg hf, if_pos he]
        rw [heq]
        simp [pageAt, he]
      · by_cases hp : pageAt client bucket i = []
        · have heq : listLoop client bucket i (fuel + 1) = ⟨[], none⟩ := by
            simp only [listLoop, if_neg hf, if_neg he, if_pos hp]
          rw [heq]
          simpa using hp
        · have heq : listLoop client bucket i (fuel + 1)
              = ⟨pageAt client bucket i :: (listLoop client bucket (i + 1) fuel).pages,
                 (listLoop client bucket (i + 1) fuel).fatal⟩ := by
            simp only [listLoop, if_neg hf, if_neg he, if_neg hp]
          rw [heq] at hfat hlen
          rw [heq]
          simp only [List.length_cons] at hlen
          simp only [List.length_cons]
          have hadd : i + ((listLoop client bucket (i + 1) fuel).pages.length + 1)
              = (i + 1) + (listLoop client bucket (i + 1) fuel).pages.length := by omega
          rw [hadd]
          exact ih (i + 1) hfat (by omega)

/-- C6: for every client, source locator, page size and page budget, the
paginator yields at most `maxPages` pages; each yielded page is the
pseudo-directory-filtered content of one listing call (hence non-empty,
bounded by the page size, and containing only bucket-joined non-directory
keys); and when the loop stops early without a fatal error, the next listing
call's filtered content is empty — an empty `Contents` or an
all-pseudo-directory page, whichever came first. -/
theorem paginator_termination_and_page_shape (client : S3ClientModel)
    (s3_path : String) (n_keys n_loops : Nat) (bucket dirp : String)
    (hparse : parse_s3_uri s3_path = some (bucket, dirp))
    (hkeys : ∀ i, (client.listResponse i).length ≤ n_keys) :
    (list_s3_get_files client s3_path n_keys n_loops).pages.length ≤ n_loops ∧
    (∀ j, j < (list_s3_get_files client s3_path n_keys n_loops).pages.length →
      (list_s3_get_files client s3_path n_keys n_loops).pages.get? j
          = some (pageAt client bucket j) ∧
      pageAt client bucket j ≠ [] ∧
      (pageAt client bucket j).length ≤ n_keys ∧
      (∀ p ∈ pageAt client bucket j, ∃ k, k ∈ client.listResponse j ∧
        endsWithSlash k = false ∧ p = os_path_join bucket k)) ∧
    ((list_s3_get_files client s3_path n_keys n_loops).fatal = none →
      (list_s3_get_files client s3_path n_keys n_loops).pages.length < n_loops →
      pageAt client bucket (list_s3_get_files client s3_path n_keys n_loops).pages.length
        = []) := by
  have hunfold : list_s3_get_files client s3_path n_keys n_loops
      = listLoop client bucket 0 n_loops := by
    simp only [list_s3_get_files, hparse]
  rw [hunfold]
  refine ⟨listLoop_len client bucket n_loops 0, fun j h => ?_, fun h1 h2 => ?_⟩
  · have hp := listLoop_pages client bucket n_loops 0 j h
    rw [Nat.zero_add] at hp
    refine ⟨hp.1, hp.2, ?_, ?_⟩
    · calc (pageAt client bucket j).length
          = ((client.listResponse j).filter (fun k => !endsWithSlash k)).length := by
            simp [pageAt]
        _ ≤ (client.listResponse j).length := List.length_filter_le _ _
        _ ≤ n_keys := hkeys j
    · intro p hmem
      simp only [pageAt, List.mem_map, List.mem_filter] at hmem
      obtain ⟨k, ⟨hk1, hk2⟩, hk3⟩ := hmem
      exact ⟨k, hk1, by simpa using hk2, hk3.symm⟩
  · have := listLoop_stop client bucket n_loops 0 h1 h2
    simpa using this

/-- Witness for C6 on the fixture store (one page of two real files, then
exhaustion): exactly one non-empty page is yielded and the next filtered page
is empty. -/
theorem paginator_termination_and_page_shape_witness :
    (list_s3_get_files clientAllOk "s3://src/in" 500 10).pages.length ≤ 10 ∧
    (list_s3_get_files clientAllOk "s3://src/in" 500 10).pages.length = 1 ∧
    pageAt clientAllOk "src"
      (list_s3_get_files clientAllOk "s3://src/in" 500 10).pages.length = [] := by
  have h := paginator_termination_and_page_shape clientAllOk "s3://src/in" 500 10 "src" "in"
    (by decide)
    (fun i => by
      cases i with
      | zero => decide
      | succ n => simp [clientAllOk, clientPages])
  exact ⟨h.1, by decide, h.2.2 (by decide) (by decide)⟩
